import Mathlib

/-!
Shallow embedding of the Dietmate meal-planner core (src/dietmate_gui.py).

Strings coming from Python operations (`str.strip`, `str.lower`,
`str.split(",")`, substring membership `a in s`) are modelled on `List Char`
(the `.data` of a `String`): each Python primitive gets an executable Lean
counterpart defined below.  The random source `random.choice` is modelled by
an oracle `rand : Nat → Nat` consumed one value per plan slot; a choice over
a list `l` picks index `rand k % l.length`, which ranges over every index of
`l`, so theorems quantified over `rand` cover every possible sequence of
random draws.
-/

/-- A recipe record, as in the JSON catalog / `SAMPLE_RECIPES`. -/
structure Recipe where
  name : String
  meal : String
  diet : String
  cal : Nat
  protein : Nat
  carbs : Nat
  fat : Nat
  ingredients : List String
deriving DecidableEq

/-- The sample recipe fixtures (`SAMPLE_RECIPES`), given individual names. -/
def oatmealBowl : Recipe :=
  ⟨"Oatmeal Bowl", "Breakfast", "vegan", 320, 8, 45, 9, ["Oats", "Banana", "Almond milk"]⟩

def grilledChickenSalad : Recipe :=
  ⟨"Grilled Chicken Salad", "Lunch", "omnivore", 420, 38, 18, 20, ["Chicken", "Lettuce", "Olive oil"]⟩

def veggieStirFry : Recipe :=
  ⟨"Veggie Stir Fry", "Dinner", "vegetarian", 400, 12, 55, 14, ["Rice", "Bell pepper", "Soy sauce"]⟩

def smoothie : Recipe :=
  ⟨"Smoothie", "Snack", "vegan", 210, 5, 35, 6, ["Banana", "Spinach", "Oats", "Almond milk"]⟩

def paneerWrap : Recipe :=
  ⟨"Paneer Wrap", "Lunch", "vegetarian", 460, 25, 40, 18, ["Paneer", "Tortilla", "Cabbage"]⟩

def eggScramble : Recipe :=
  ⟨"Egg Scramble", "Breakfast", "omnivore", 280, 20, 5, 18, ["Eggs", "Tomato", "Spinach"]⟩

def tofuCurry : Recipe :=
  ⟨"Tofu Curry", "Dinner", "vegan", 440, 22, 30, 16, ["Tofu", "Coconut milk", "Curry paste"]⟩

def SAMPLE_RECIPES : List Recipe :=
  [oatmealBowl, grilledChickenSalad, veggieStirFry, smoothie, paneerWrap, eggScramble, tofuCurry]

/-- Python `str.strip()`: drop leading and trailing whitespace. -/
def pyStrip (l : List Char) : List Char :=
  ((l.dropWhile Char.isWhitespace).reverse.dropWhile Char.isWhitespace).reverse

/-- Python `str.lower()` (ASCII case folding, as used by the catalog data). -/
def pyLower (l : List Char) : List Char :=
  l.map Char.toLower

/-- Python `s.split(",")`: split at every comma, keeping empty pieces. -/
def splitComma : List Char → List (List Char)
  | [] => [[]]
  | c :: rest =>
    if c = ',' then [] :: splitComma rest
    else
      match splitComma rest with
      | [] => [[c]]
      | p :: ps => (c :: p) :: ps

/-- Python substring membership `a in s`. -/
def isSubstring (p s : List Char) : Bool :=
  decide (p <:+: s)

/-- Line 150: `[a.strip().lower() for a in profile.get("allergies","").split(",") if a.strip()]`. -/
def parseAllergies (s : String) : List (List Char) :=
  ((splitComma s.data).filter (fun a => !(pyStrip a).isEmpty)).map (fun a => pyLower (pyStrip a))

/-- Line 154's matching text: `(", ".join(r["ingredients"])).lower()`. -/
def ingredientText (r : Recipe) : List Char :=
  pyLower (List.intercalate (", ".data) (r.ingredients.map String.data))

/-- Line 154's predicate: `any(a in joined_lowered for a in allergies)`. -/
def hasAllergen (tokens : List (List Char)) (r : Recipe) : Bool :=
  tokens.any (fun a => isSubstring a (ingredientText r))

/-- Line 152: `[r for r in recipes if r["diet"] == diet or diet == "omnivore"]`. -/
def dietFiltered (diet : String) (recipes : List Recipe) : List Recipe :=
  recipes.filter (fun r => r.diet == diet || diet == "omnivore")

/-- Lines 152-154: diet filter, then (only when the token list is non-empty)
the allergy filter. -/
def filteredRecipes (diet : String) (tokens : List (List Char)) (recipes : List Recipe) :
    List Recipe :=
  let f := dietFiltered diet recipes
  if tokens.isEmpty then f else f.filter (fun r => !hasAllergen tokens r)

/-- Python `profile.get(key, default)` on the profile dictionary. -/
def dictGet (d : List (String × String)) (key deflt : String) : String :=
  match d.find? (fun p => p.1 == key) with
  | some p => p.2
  | none => deflt

/-- Line 160: `meals = ["Breakfast", "Lunch", "Snack", "Dinner"]`. -/
def mealSlots : List String :=
  ["Breakfast", "Lunch", "Snack", "Dinner"]

/-- Line 163: the f-string `f"Day {day}"`. -/
def dayLabel (d : Nat) : String :=
  "Day " ++ toString d

/-- The seven day labels in order. -/
def weekDays : List String :=
  ["Day 1", "Day 2", "Day 3", "Day 4", "Day 5", "Day 6", "Day 7"]

/-- A generated plan: day label ↦ (meal slot ↦ recipe), in insertion order
(Python dicts preserve insertion order). -/
abbrev Plan := List (String × List (String × Recipe))

/-- `random.choice(l)` given the oracle value `k`: uniform selection is
modelled by an arbitrary index `k % l.length`; `none` models the `IndexError`
Python raises on an empty sequence. -/
def randomChoice (k : Nat) (l : List Recipe) : Option Recipe :=
  l.get? (k % l.length)

/-- Lines 165-166: `choices = [r for r in filtered if r["meal"] == meal]`,
then `random.choice(choices) if choices else random.choice(filtered)`. -/
def pickSlot (filtered : List Recipe) (meal : String) (k : Nat) : Option Recipe :=
  let choices := filtered.filter (fun r => r.meal == meal)
  if choices.isEmpty then randomChoice k filtered else randomChoice k choices

/-- Lines 164-166: fill the meal slots of one day, consuming one oracle value
per slot starting at index `base`. -/
def buildMeals (filtered : List Recipe) (rand : Nat → Nat) :
    Nat → List String → Option (List (String × Recipe))
  | _, [] => some []
  | base, m :: rest =>
    match pickSlot filtered m (rand base), buildMeals filtered rand (base + 1) rest with
    | some r, some tail => some ((m, r) :: tail)
    | _, _ => none

/-- Lines 162-166: fill the given days (`for day in range(1, 8)` uses
`[1, ..., 7]`); day `d` consumes oracle values `(d-1)*4 .. (d-1)*4+3`. -/
def buildDays (filtered : List Recipe) (rand : Nat → Nat) : List Nat → Option Plan
  | [] => some []
  | d :: rest =>
    match buildMeals filtered rand ((d - 1) * 4) mealSlots, buildDays filtered rand rest with
    | some ms, some tail => some ((dayLabel d, ms) :: tail)
    | _, _ => none

/-- The whole plan-construction loop of lines 160-166. -/
def buildPlan (filtered : List Recipe) (rand : Nat → Nat) : Option Plan :=
  buildDays filtered rand [1, 2, 3, 4, 5, 6, 7]

/-- The mutable fields of `DietmateApp` that `generate_plan` reads or writes:
`self.profile` (a dict, modelled as an association list), `self.recipes`, and
`self.current_plan` (absent before the first `show_plan`, modelled `none`). -/
structure AppState where
  profile : List (String × String)
  recipes : List Recipe
  current_plan : Option Plan
deriving DecidableEq

/-- The user-visible outcome of one `generate_plan` invocation. -/
inductive GenOutcome where
  | missingInfo : GenOutcome
  | noRecipes : GenOutcome
  | planShown : Plan → GenOutcome
  | indexError : GenOutcome
deriving DecidableEq

/-- Lines 171-180: `show_plan` renders the plan and stores it in
`self.current_plan`. -/
def show_plan (st : AppState) (p : Plan) : AppState :=
  ⟨st.profile, st.recipes, some p⟩

/-- Lines 144-168: `generate_plan`.  Returns the successor state together
with the outcome; early returns leave the state unchanged. -/
def generate_plan (st : AppState) (rand : Nat → Nat) : AppState × GenOutcome :=
  if st.profile.isEmpty || st.recipes.isEmpty then (st, GenOutcome.missingInfo)
  else
    let diet := dictGet st.profile "diet_type" "omnivore"
    let tokens := parseAllergies (dictGet st.profile "allergies" "")
    let filtered := filteredRecipes diet tokens st.recipes
    if filtered.isEmpty then (st, GenOutcome.noRecipes)
    else
      match buildPlan filtered rand with
      | some p => (show_plan st p, GenOutcome.planShown p)
      | none => (st, GenOutcome.indexError)

/-- Lines 188-191: flatten every slot's ingredient list in iteration order. -/
def planItems (plan : Plan) : List String :=
  (plan.map (fun day => (day.2.map (fun m => m.2.ingredients)).flatten)).flatten

/-- Code-point comparison of strings as char lists (Python's `<=` on `str`). -/
def charListLe : List Char → List Char → Bool
  | [], _ => true
  | _ :: _, [] => false
  | a :: as, b :: bs =>
    if a.toNat < b.toNat then true
    else if b.toNat < a.toNat then false
    else charListLe as bs

/-- String comparison used by Python's `sorted`. -/
def strLe (a b : String) : Bool :=
  charListLe a.data b.data

/-- Insert into a sorted list (auxiliary for the model of `sorted`). -/
def insertSorted (x : String) : List String → List String
  | [] => [x]
  | y :: ys => if strLe x y then x :: y :: ys else y :: insertSorted x ys

/-- Python `sorted` on a list of strings, modelled by insertion sort. -/
def pySorted : List String → List String
  | [] => []
  | x :: xs => insertSorted x (pySorted xs)

/-- Line 192: `sorted(set(items))` — deduplicate, then sort. -/
def extractShoppingList (plan : Plan) : List String :=
  pySorted (planItems plan).dedup

/-- Lines 210-215 of `show_chart`: for each day, in iteration order, the pair
of its label and `sum(m["cal"] for m in meals.values())`. -/
def aggregateCalories (plan : Plan) : List (String × Nat) :=
  plan.map (fun day => (day.1, (day.2.map (fun m => m.2.cal)).sum))

/-- A concrete full week plan over the sample recipes, used to exercise the
derived views; its Day 1 calories are 320, 420, 210 and 400. -/
def demoPlan : Plan :=
  weekDays.map (fun d =>
    (d, [("Breakfast", oatmealBowl), ("Lunch", grilledChickenSalad),
         ("Snack", smoothie), ("Dinner", veggieStirFry)]))

/-! ### Helper lemmas -/

theorem randomChoice_spec (k : Nat) (l : List Recipe) (h : l ≠ []) :
    ∃ x, randomChoice k l = some x ∧ x ∈ l := by
  have hlt : k % l.length < l.length :=
    Nat.mod_lt _ (List.length_pos.mpr h)
  exact ⟨l.get ⟨k % l.length, hlt⟩, by rw [randomChoice, List.get?_eq_get hlt],
    List.get_mem l _ hlt⟩

theorem pickSlot_spec (filtered : List Recipe) (meal : String) (k : Nat)
    (h : filtered ≠ []) :
    ∃ x, pickSlot filtered meal k = some x ∧ x ∈ filtered ∧
      (filtered.filter (fun r => r.meal == meal) ≠ [] →
        x ∈ filtered.filter (fun r => r.meal == meal)) := by
  by_cases hc : (filtered.filter (fun r => r.meal == meal)).isEmpty
  · obtain ⟨x, hx, hxm⟩ := randomChoice_spec k filtered h
    refine ⟨x, ?_, hxm, ?_⟩
    · simpa [pickSlot, hc] using hx
    · intro hne
      exact absurd (List.isEmpty_iff.mp hc) hne
  · have hne : filtered.filter (fun r => r.meal == meal) ≠ [] := by
      intro hnil
      exact hc (by simp [hnil])
    obtain ⟨x, hx, hxm⟩ := randomChoice_spec k (filtered.filter (fun r => r.meal == meal)) hne
    refine ⟨x, ?_, List.mem_of_mem_filter hxm, fun _ => hxm⟩
    simpa [pickSlot, hc] using hx

theorem buildMeals_spec (filtered : List Recipe) (rand : Nat → Nat)
    (h : filtered ≠ []) :
    ∀ (ms : List String) (base : Nat),
      ∃ l, buildMeals filtered rand base ms = some l ∧
        l.map Prod.fst = ms ∧
        ∀ m ∈ l, m.2 ∈ filtered ∧
          (filtered.filter (fun r => r.meal == m.1) ≠ [] →
            m.2 ∈ filtered.filter (fun r => r.meal == m.1)) := by
  intro ms
  induction ms with
  | nil => exact fun base => ⟨[], rfl, rfl, by simp⟩
  | cons s rest ih =>
    intro base
    obtain ⟨x, hx, hxf, hxc⟩ := pickSlot_spec filtered s (rand base) h
    obtain ⟨tail, htail, hmap, hall⟩ := ih (base + 1)
    refine ⟨(s, x) :: tail, ?_, by simp [hmap], ?_⟩
    · simp [buildMeals, hx, htail]
    · intro m hm
      rcases List.mem_cons.mp hm with hm | hm
      · subst hm
        exact ⟨hxf, hxc⟩
      · exact hall m hm

theorem buildDays_spec (filtered : List Recipe) (rand : Nat → Nat)
    (h : filtered ≠ []) :
    ∀ ds : List Nat,
      ∃ pl : Plan, buildDays filtered rand ds = some pl ∧
        pl.map Prod.fst = ds.map dayLabel ∧
        ∀ day ∈ pl, day.2.map Prod.fst = mealSlots ∧
          ∀ m ∈ day.2, m.2 ∈ filtered ∧
            (filtered.filter (fun r => r.meal == m.1) ≠ [] →
              m.2 ∈ filtered.filter (fun r => r.meal == m.1)) := by
  intro ds
  induction ds with
  | nil => exact ⟨[], rfl, rfl, by simp⟩
  | cons d rest ih =>
    obtain ⟨ms, hms, hmap, hall⟩ := buildMeals_spec filtered rand h mealSlots ((d - 1) * 4)
    obtain ⟨tail, htail, htmap, htall⟩ := ih
    refine ⟨(dayLabel d, ms) :: tail, ?_, by simp [htmap], ?_⟩
    · simp [buildDays, hms, htail]
    · intro day hday
      rcases List.mem_cons.mp hday with hday | hday
      · subst hday
        exact ⟨hmap, hall⟩
      · exact htall day hday

theorem buildPlan_spec (filtered : List Recipe) (rand : Nat → Nat)
    (h : filtered ≠ []) :
    ∃ pl : Plan, buildPlan filtered rand = some pl ∧
      pl.map Prod.fst = weekDays ∧
      ∀ day ∈ pl, day.2.map Prod.fst = mealSlots ∧
        ∀ m ∈ day.2, m.2 ∈ filtered ∧
          (filtered.filter (fun r => r.meal == m.1) ≠ [] →
            m.2 ∈ filtered.filter (fun r => r.meal == m.1)) := by
  obtain ⟨pl, hpl, hmap, hall⟩ := buildDays_spec filtered rand h [1, 2, 3, 4, 5, 6, 7]
  exact ⟨pl, hpl, by rw [hmap]; rfl, hall⟩

theorem mem_of_mem_filteredRecipes {diet : String} {tokens : List (List Char)}
    {recipes : List Recipe} {r : Recipe}
    (h : r ∈ filteredRecipes diet tokens recipes) : r ∈ recipes := by
  unfold filteredRecipes at h
  split at h
  · exact List.mem_of_mem_filter h
  · exact List.mem_of_mem_filter (List.mem_of_mem_filter h)

theorem generate_plan_success (st : AppState) (rand : Nat → Nat)
    (hp : st.profile ≠ [])
    (hf : filteredRecipes (dictGet st.profile "diet_type" "omnivore")
      (parseAllergies (dictGet st.profile "allergies" "")) st.recipes ≠ []) :
    ∃ p : Plan,
      generate_plan st rand = (show_plan st p, GenOutcome.planShown p) ∧
      p.map Prod.fst = weekDays ∧
      ∀ day ∈ p, day.2.map Prod.fst = mealSlots ∧
        ∀ m ∈ day.2,
          m.2 ∈ filteredRecipes (dictGet st.profile "diet_type" "omnivore")
            (parseAllergies (dictGet st.profile "allergies" "")) st.recipes ∧
          ((filteredRecipes (dictGet st.profile "diet_type" "omnivore")
              (parseAllergies (dictGet st.profile "allergies" ""))
              st.recipes).filter (fun r => r.meal == m.1) ≠ [] →
            m.2 ∈ (filteredRecipes (dictGet st.profile "diet_type" "omnivore")
              (parseAllergies (dictGet st.profile "allergies" ""))
              st.recipes).filter (fun r => r.meal == m.1)) := by
  obtain ⟨r0, hr0⟩ := List.exists_mem_of_ne_nil _ hf
  have hrec : st.recipes ≠ [] := by
    intro hnil
    rw [hnil] at hr0
    have := mem_of_mem_filteredRecipes hr0
    simp at this
  obtain ⟨pl, hpl, hmap, hall⟩ :=
    buildPlan_spec (filteredRecipes (dictGet st.profile "diet_type" "omnivore")
      (parseAllergies (dictGet st.profile "allergies" "")) st.recipes) rand hf
  refine ⟨pl, ?_, hmap, hall⟩
  have h1 : st.profile.isEmpty = false := List.isEmpty_eq_false.mpr hp
  have h2 : st.recipes.isEmpty = false := List.isEmpty_eq_false.mpr hrec
  have h3 : (filteredRecipes (dictGet st.profile "diet_type" "omnivore")
      (parseAllergies (dictGet st.profile "allergies" "")) st.recipes).isEmpty = false :=
    List.isEmpty_eq_false.mpr hf
  simp [generate_plan, h1, h2, h3, hpl]

theorem charListLe_total : ∀ a b : List Char, charListLe a b = true ∨ charListLe b a = true
  | [], _ => Or.inl rfl
  | _ :: _, [] => Or.inr rfl
  | a :: as, b :: bs => by
    by_cases h1 : a.toNat < b.toNat
    · left
      simp [charListLe, h1]
    · by_cases h2 : b.toNat < a.toNat
      · right
        simp [charListLe, h1, h2]
      · rcases charListLe_total as bs with h | h
        · left
          simp [charListLe, h1, h2, h]
        · right
          simp [charListLe, h1, h2, h]

theorem strLe_total (a b : String) : strLe a b = true ∨ strLe b a = true :=
  charListLe_total a.data b.data

theorem insertSorted_perm (x : String) : ∀ l : List String,
    (insertSorted x l).Perm (x :: l)
  | [] => List.Perm.refl _
  | y :: ys => by
    by_cases h : strLe x y
    · simp [insertSorted, h]
    · simp only [insertSorted, h, if_false, Bool.false_eq_true]
      exact (List.Perm.cons y (insertSorted_perm x ys)).trans (List.Perm.swap x y ys)

theorem pySorted_perm : ∀ l : List String, (pySorted l).Perm l
  | [] => List.Perm.refl _
  | x :: xs => (insertSorted_perm x (pySorted xs)).trans (List.Perm.cons x (pySorted_perm xs))

theorem charListLe_trans : ∀ a b c : List Char,
    charListLe a b = true → charListLe b c = true → charListLe a c = true
  | [], _, _, _, _ => rfl
  | _ :: _, [], _, h1, _ => by simp [charListLe] at h1
  | _ :: _, _ :: _, [], _, h2 => by simp [charListLe] at h2
  | a :: as, b :: bs, c :: cs, h1, h2 => by
    simp only [charListLe] at h1 h2 ⊢
    by_cases hab : a.toNat < b.toNat
    · by_cases hbc : b.toNat < c.toNat
      · simp [Nat.lt_trans hab hbc]
      · by_cases hcb : c.toNat < b.toNat
        · simp [hbc, hcb] at h2
        · have hbceq : b.toNat = c.toNat :=
            Nat.le_antisymm (Nat.not_lt.mp hcb) (Nat.not_lt.mp hbc)
          simp [hbceq ▸ hab]
    · by_cases hba : b.toNat < a.toNat
      · simp [hab, hba] at h1
      · have habeq : a.toNat = b.toNat :=
          Nat.le_antisymm (Nat.not_lt.mp hba) (Nat.not_lt.mp hab)
        have h1' : charListLe as bs = true := by
          simpa [hab, hba] using h1
        by_cases hbc : b.toNat < c.toNat
        · simp [habeq ▸ hbc]
        · by_cases hcb : c.toNat < b.toNat
          · simp [hbc, hcb] at h2
          · have h2' : charListLe bs cs = true := by
              simpa [hbc, hcb] using h2
            have hac : ¬ a.toNat < c.toNat := habeq ▸ hbc
            have hca : ¬ c.toNat < a.toNat := habeq ▸ hcb
            simp [hac, hca, charListLe_trans as bs cs h1' h2']

theorem strLe_trans {a b c : String} (h1 : strLe a b = true) (h2 : strLe b c = true) :
    strLe a c = true :=
  charListLe_trans a.data b.data c.data h1 h2

theorem insertSorted_sorted (x : String) : ∀ l : List String,
    l.Pairwise (fun a b => strLe a b = true) →
    (insertSorted x l).Pairwise (fun a b => strLe a b = true) := by
  intro l
  induction l with
  | nil => exact fun _ => List.Pairwise.cons (by simp) List.Pairwise.nil
  | cons y ys ih =>
    intro h
    rcases List.pairwise_cons.mp h with ⟨hy, hys⟩
    by_cases hxy : strLe x y
    · simp only [insertSorted, hxy, if_true]
      refine List.Pairwise.cons ?_ h
      intro a ha
      rcases List.mem_cons.mp ha with ha | ha
      · subst ha
        exact hxy
      · exact strLe_trans hxy (hy a ha)
    · simp only [insertSorted, hxy, if_false, Bool.false_eq_true]
      refine List.Pairwise.cons ?_ (ih hys)
      intro a ha
      have ha2 : a = x ∨ a ∈ ys := by
        have := (insertSorted_perm x ys).mem_iff.mp ha
        simpa using this
      rcases ha2 with ha2 | ha2
      · rcases strLe_total x y with hyx | hyx
        · exact absurd hyx hxy
        · exact ha2.symm ▸ hyx
      · exact hy a ha2

theorem pySorted_sorted : ∀ l : List String,
    (pySorted l).Pairwise (fun a b => strLe a b = true)
  | [] => List.Pairwise.nil
  | x :: xs => insertSorted_sorted x (pySorted xs) (pySorted_sorted xs)

theorem splitComma_whitespace : ∀ l : List Char,
    (∀ c ∈ l, c = ',' ∨ c.isWhitespace = true) →
    ∀ p ∈ splitComma l, ∀ c ∈ p, c.isWhitespace = true := by
  intro l
  induction l with
  | nil =>
    intro _ p hp
    simp only [splitComma, List.mem_singleton] at hp
    subst hp
    intro c hc
    cases hc
  | cons a rest ih =>
    intro h p hp
    have hrest : ∀ c ∈ rest, c = ',' ∨ c.isWhitespace = true :=
      fun c hc => h c (List.mem_cons_of_mem a hc)
    by_cases ha : a = ','
    · simp only [splitComma, ha, if_pos] at hp
      rcases List.mem_cons.mp hp with hp | hp
      · subst hp
        intro c hc
        cases hc
      · exact ih hrest p hp
    · have haw : a.isWhitespace = true :=
        (h a (List.mem_cons_self a rest)).resolve_left ha
      simp only [splitComma, ha, if_neg, if_false] at hp
      cases hsp : splitComma rest with
      | nil =>
        rw [hsp] at hp
        simp only [List.mem_singleton] at hp
        subst hp
        intro c hc
        rcases List.mem_cons.mp hc with hc | hc
        · subst hc
          exact haw
        · cases hc
      | cons p0 ps =>
        rw [hsp] at hp
        rcases List.mem_cons.mp hp with hp | hp
        · subst hp
          intro c hc
          rcases List.mem_cons.mp hc with hc | hc
          · subst hc
            exact haw
          · exact ih hrest p0 (hsp ▸ List.mem_cons_self p0 ps) c hc
        · exact ih hrest p (hsp ▸ List.mem_cons_of_mem p0 hp)

theorem pyStrip_of_whitespace {p : List Char}
    (h : ∀ c ∈ p, c.isWhitespace = true) : pyStrip p = [] := by
  have h1 : p.dropWhile Char.isWhitespace = [] :=
    List.dropWhile_eq_nil_iff.mpr h
  simp [pyStrip, h1]

theorem parseAllergies_of_ws (s : String)
    (h : ∀ c ∈ s.data, c = ',' ∨ c.isWhitespace = true) :
    parseAllergies s = [] := by
  have hpieces := splitComma_whitespace s.data h
  unfold parseAllergies
  rw [List.filter_eq_nil_iff.mpr ?_]
  · rfl
  · intro p hp
    simp [pyStrip_of_whitespace (hpieces p hp)]

theorem filteredRecipes_no_tokens (diet : String) (recipes : List Recipe) :
    filteredRecipes diet [] recipes = dietFiltered diet recipes := by
  simp [filteredRecipes]

/-! ### Claim theorems -/

/-- C1: the diet filter retains exactly the recipes `r` with
`r.diet = profile.diet_type` or `profile.diet_type = "omnivore"`; omnivore
profiles keep the whole catalog, and vegan profiles keep only recipes tagged
`"vegan"`. -/
theorem dietFilter_correct (diet : String) (recipes : List Recipe) :
    (∀ r : Recipe, r ∈ dietFiltered diet recipes ↔
      r ∈ recipes ∧ (r.diet = diet ∨ diet = "omnivore")) ∧
    (diet = "omnivore" → dietFiltered diet recipes = recipes) ∧
    (diet = "vegan" → ∀ r ∈ dietFiltered diet recipes, r.diet = "vegan") := by
  refine ⟨?_, ?_, ?_⟩
  · intro r
    simp [dietFiltered, List.mem_filter]
  · intro h
    subst h
    simp [dietFiltered, List.filter_eq_self]
  · intro h r hr
    subst h
    have h2 := (List.mem_filter.mp hr).2
    rcases Bool.or_eq_true _ _ |>.mp h2 with h3 | h3
    · exact beq_iff_eq.mp h3
    · exact absurd h3 (by decide)

theorem dietFilter_correct_witness :
    oatmealBowl ∈ dietFiltered "vegan" SAMPLE_RECIPES ∧
    dietFiltered "omnivore" SAMPLE_RECIPES = SAMPLE_RECIPES ∧
    (∀ r ∈ dietFiltered "vegan" SAMPLE_RECIPES, r.diet = "vegan") :=
  ⟨((dietFilter_correct "vegan" SAMPLE_RECIPES).1 oatmealBowl).mpr (by decide),
   (dietFilter_correct "omnivore" SAMPLE_RECIPES).2.1 rfl,
   (dietFilter_correct "vegan" SAMPLE_RECIPES).2.2 rfl⟩

/-- C2: with a non-empty parsed allergy token list, no surviving recipe's
joined, lower-cased ingredient string contains any token as a substring; in
particular token "nut" matches the "Coconut milk" of Tofu Curry. -/
theorem allergyFilter_correct (s diet : String) (recipes : List Recipe)
    (hne : parseAllergies s ≠ []) :
    (∀ r ∈ filteredRecipes diet (parseAllergies s) recipes,
      hasAllergen (parseAllergies s) r = false) ∧
    hasAllergen (parseAllergies "nut") tofuCurry = true := by
  refine ⟨?_, by decide⟩
  intro r hr
  have hE : (parseAllergies s).isEmpty = false := List.isEmpty_eq_false.mpr hne
  simp only [filteredRecipes, hE, Bool.false_eq_true, if_false] at hr
  simpa using (List.mem_filter.mp hr).2

theorem allergyFilter_correct_witness :
    parseAllergies "nut" ≠ [] ∧
    (∀ r ∈ filteredRecipes "vegan" (parseAllergies "nut") SAMPLE_RECIPES,
      hasAllergen (parseAllergies "nut") r = false) ∧
    hasAllergen (parseAllergies "nut") tofuCurry = true :=
  ⟨by decide,
   (allergyFilter_correct "nut" "vegan" SAMPLE_RECIPES (by decide)).1,
   (allergyFilter_correct "nut" "vegan" SAMPLE_RECIPES (by decide)).2⟩

/-- C3: whenever the filtered set is non-empty, `generate_plan` succeeds with
a plan keyed exactly by "Day 1" .. "Day 7" in order, each day holding exactly
the slots Breakfast, Lunch, Snack, Dinner, each filled from the filtered
set. -/
theorem generate_plan_shape (st : AppState) (rand : Nat → Nat)
    (hp : st.profile ≠ [])
    (hf : filteredRecipes (dictGet st.profile "diet_type" "omnivore")
      (parseAllergies (dictGet st.profile "allergies" "")) st.recipes ≠ []) :
    ∃ p : Plan,
      generate_plan st rand = (show_plan st p, GenOutcome.planShown p) ∧
      p.map Prod.fst = weekDays ∧
      ∀ day ∈ p, day.2.map Prod.fst = mealSlots ∧
        ∀ m ∈ day.2,
          m.2 ∈ filteredRecipes (dictGet st.profile "diet_type" "omnivore")
            (parseAllergies (dictGet st.profile "allergies" "")) st.recipes := by
  obtain ⟨p, h1, h2, h3⟩ := generate_plan_success st rand hp hf
  exact ⟨p, h1, h2, fun day hday =>
    ⟨(h3 day hday).1, fun m hm => ((h3 day hday).2 m hm).1⟩⟩

theorem generate_plan_shape_witness :
    ([(("diet_type" : String), ("vegan" : String)), ("allergies", "")] ≠
      ([] : List (String × String))) ∧
    filteredRecipes (dictGet [("diet_type", "vegan"), ("allergies", "")] "diet_type" "omnivore")
      (parseAllergies (dictGet [("diet_type", "vegan"), ("allergies", "")] "allergies" ""))
      SAMPLE_RECIPES ≠ [] ∧
    ∃ p : Plan,
      generate_plan ⟨[("diet_type", "vegan"), ("allergies", "")], SAMPLE_RECIPES, none⟩
        (fun _ => 0) =
        (show_plan ⟨[("diet_type", "vegan"), ("allergies", "")], SAMPLE_RECIPES, none⟩ p,
          GenOutcome.planShown p) ∧
      p.map Prod.fst = weekDays ∧
      ∀ day ∈ p, day.2.map Prod.fst = mealSlots ∧
        ∀ m ∈ day.2,
          m.2 ∈ filteredRecipes
            (dictGet [("diet_type", "vegan"), ("allergies", "")] "diet_type" "omnivore")
            (parseAllergies (dictGet [("diet_type", "vegan"), ("allergies", "")] "allergies" ""))
            SAMPLE_RECIPES :=
  ⟨by decide, by decide,
   generate_plan_shape ⟨[("diet_type", "vegan"), ("allergies", "")], SAMPLE_RECIPES, none⟩
     (fun _ => 0) (by decide) (by decide)⟩

/-- C4: each slot's recipe comes from the filtered recipes tagged for that
slot when that subset is non-empty, and from the whole filtered set
otherwise (cross-slot fallback). -/
theorem generate_plan_fallback (st : AppState) (rand : Nat → Nat)
    (hp : st.profile ≠ [])
    (hf : filteredRecipes (dictGet st.profile "diet_type" "omnivore")
      (parseAllergies (dictGet st.profile "allergies" "")) st.recipes ≠ []) :
    ∃ p : Plan,
      generate_plan st rand = (show_plan st p, GenOutcome.planShown p) ∧
      ∀ day ∈ p, ∀ m ∈ day.2,
        ((filteredRecipes (dictGet st.profile "diet_type" "omnivore")
            (parseAllergies (dictGet st.profile "allergies" ""))
            st.recipes).filter (fun r => r.meal == m.1) ≠ [] →
          m.2 ∈ (filteredRecipes (dictGet st.profile "diet_type" "omnivore")
            (parseAllergies (dictGet st.profile "allergies" ""))
            st.recipes).filter (fun r => r.meal == m.1)) ∧
        ((filteredRecipes (dictGet st.profile "diet_type" "omnivore")
            (parseAllergies (dictGet st.profile "allergies" ""))
            st.recipes).filter (fun r => r.meal == m.1) = [] →
          m.2 ∈ filteredRecipes (dictGet st.profile "diet_type" "omnivore")
            (parseAllergies (dictGet st.profile "allergies" "")) st.recipes) := by
  obtain ⟨p, h1, _, h3⟩ := generate_plan_success st rand hp hf
  exact ⟨p, h1, fun day hday m hm =>
    ⟨((h3 day hday).2 m hm).2, fun _ => ((h3 day hday).2 m hm).1⟩⟩

theorem generate_plan_fallback_witness :
    ([(("diet_type" : String), ("omnivore" : String))] ≠ ([] : List (String × String))) ∧
    filteredRecipes (dictGet [("diet_type", "omnivore")] "diet_type" "omnivore")
      (parseAllergies (dictGet [("diet_type", "omnivore")] "allergies" ""))
      SAMPLE_RECIPES ≠ [] ∧
    ∃ p : Plan,
      generate_plan ⟨[("diet_type", "omnivore")], SAMPLE_RECIPES, none⟩ (fun n => n) =
        (show_plan ⟨[("diet_type", "omnivore")], SAMPLE_RECIPES, none⟩ p,
          GenOutcome.planShown p) ∧
      ∀ day ∈ p, ∀ m ∈ day.2,
        ((filteredRecipes (dictGet [("diet_type", "omnivore")] "diet_type" "omnivore")
            (parseAllergies (dictGet [("diet_type", "omnivore")] "allergies" ""))
            SAMPLE_RECIPES).filter (fun r => r.meal == m.1) ≠ [] →
          m.2 ∈ (filteredRecipes (dictGet [("diet_type", "omnivore")] "diet_type" "omnivore")
            (parseAllergies (dictGet [("diet_type", "omnivore")] "allergies" ""))
            SAMPLE_RECIPES).filter (fun r => r.meal == m.1)) ∧
        ((filteredRecipes (dictGet [("diet_type", "omnivore")] "diet_type" "omnivore")
            (parseAllergies (dictGet [("diet_type", "omnivore")] "allergies" ""))
            SAMPLE_RECIPES).filter (fun r => r.meal == m.1) = [] →
          m.2 ∈ filteredRecipes (dictGet [("diet_type", "omnivore")] "diet_type" "omnivore")
            (parseAllergies (dictGet [("diet_type", "omnivore")] "allergies" ""))
            SAMPLE_RECIPES) :=
  ⟨by decide, by decide,
   generate_plan_fallback ⟨[("diet_type", "omnivore")], SAMPLE_RECIPES, none⟩
     (fun n => n) (by decide) (by decide)⟩

/-- C5: when the filters eliminate every recipe, `generate_plan` reports the
no-matching-recipes error, produces no plan, and leaves the whole state (in
particular `current_plan`) unchanged. -/
theorem generate_plan_noMatch (st : AppState) (rand : Nat → Nat)
    (hp : st.profile ≠ []) (hr : st.recipes ≠ [])
    (hf : filteredRecipes (dictGet st.profile "diet_type" "omnivore")
      (parseAllergies (dictGet st.profile "allergies" "")) st.recipes = []) :
    generate_plan st rand = (st, GenOutcome.noRecipes) ∧
    (generate_plan st rand).1.current_plan = st.current_plan := by
  have h1 : st.profile.isEmpty = false := List.isEmpty_eq_false.mpr hp
  have h2 : st.recipes.isEmpty = false := List.isEmpty_eq_false.mpr hr
  have heq : generate_plan st rand = (st, GenOutcome.noRecipes) := by
    simp [generate_plan, h1, h2, hf]
  exact ⟨heq, by rw [heq]⟩

theorem generate_plan_noMatch_witness :
    ([(("diet_type" : String), ("vegan" : String)),
      ("allergies", "tofu,oats,banana,spinach,almond")] ≠ ([] : List (String × String))) ∧
    SAMPLE_RECIPES ≠ [] ∧
    filteredRecipes
      (dictGet [("diet_type", "vegan"), ("allergies", "tofu,oats,banana,spinach,almond")]
        "diet_type" "omnivore")
      (parseAllergies
        (dictGet [("diet_type", "vegan"), ("allergies", "tofu,oats,banana,spinach,almond")]
          "allergies" ""))
      SAMPLE_RECIPES = [] ∧
    generate_plan
      ⟨[("diet_type", "vegan"), ("allergies", "tofu,oats,banana,spinach,almond")],
        SAMPLE_RECIPES, some demoPlan⟩ (fun _ => 0) =
      (⟨[("diet_type", "vegan"), ("allergies", "tofu,oats,banana,spinach,almond")],
        SAMPLE_RECIPES, some demoPlan⟩, GenOutcome.noRecipes) ∧
    (generate_plan
      ⟨[("diet_type", "vegan"), ("allergies", "tofu,oats,banana,spinach,almond")],
        SAMPLE_RECIPES, some demoPlan⟩ (fun _ => 0)).1.current_plan = some demoPlan :=
  ⟨by decide, by decide, by decide,
   (generate_plan_noMatch
     ⟨[("diet_type", "vegan"), ("allergies", "tofu,oats,banana,spinach,almond")],
       SAMPLE_RECIPES, some demoPlan⟩ (fun _ => 0) (by decide) (by decide) (by decide)).1,
   (generate_plan_noMatch
     ⟨[("diet_type", "vegan"), ("allergies", "tofu,oats,banana,spinach,almond")],
       SAMPLE_RECIPES, some demoPlan⟩ (fun _ => 0) (by decide) (by decide) (by decide)).2⟩

/-- C6: with an absent/empty profile or an empty catalog, `generate_plan`
fails with the missing-prerequisites warning before any filtering, produces
no plan and leaves the state unchanged; this outcome is distinct from the
no-matching-recipes error. -/
theorem generate_plan_missing (st : AppState) (rand : Nat → Nat)
    (h : st.profile = [] ∨ st.recipes = []) :
    generate_plan st rand = (st, GenOutcome.missingInfo) ∧
    GenOutcome.missingInfo ≠ GenOutcome.noRecipes := by
  refine ⟨?_, by decide⟩
  rcases h with h | h <;> simp [generate_plan, h]

theorem generate_plan_missing_witness :
    (([] : List (String × String)) = [] ∨ SAMPLE_RECIPES = []) ∧
    generate_plan ⟨[], SAMPLE_RECIPES, none⟩ (fun _ => 0) =
      (⟨[], SAMPLE_RECIPES, none⟩, GenOutcome.missingInfo) ∧
    GenOutcome.missingInfo ≠ GenOutcome.noRecipes :=
  ⟨Or.inl rfl,
   (generate_plan_missing ⟨[], SAMPLE_RECIPES, none⟩ (fun _ => 0) (Or.inl rfl)).1,
   (generate_plan_missing ⟨[], SAMPLE_RECIPES, none⟩ (fun _ => 0) (Or.inl rfl)).2⟩

/-- C7: the calorie view yields one (day label, total) pair per day in plan
order, and for a day holding the four meal slots the total is the arithmetic
sum of the four meals' calorie fields. -/
theorem aggregateCalories_correct (p : Plan)
    (hdays : p.map Prod.fst = weekDays)
    (_hmeals : ∀ day ∈ p, day.2.map Prod.fst = mealSlots) :
    (aggregateCalories p).map Prod.fst = weekDays ∧
    ∀ day ∈ p, ∀ b l s d : Recipe,
      day.2 = [("Breakfast", b), ("Lunch", l), ("Snack", s), ("Dinner", d)] →
      (day.1, b.cal + l.cal + s.cal + d.cal) ∈ aggregateCalories p := by
  refine ⟨?_, ?_⟩
  · rw [aggregateCalories, List.map_map, ← hdays]
    rfl
  · intro day hday b l s d hd
    have hmem : (day.1, ((day.2.map (fun m => m.2.cal)).sum)) ∈ aggregateCalories p :=
      List.mem_map.mpr ⟨day, hday, rfl⟩
    have hsum : ((day.2.map (fun m => m.2.cal)).sum) = b.cal + l.cal + s.cal + d.cal := by
      rw [hd]
      simp [add_assoc]
    rw [hsum] at hmem
    exact hmem

theorem aggregateCalories_correct_witness :
    demoPlan.map Prod.fst = weekDays ∧
    (∀ day ∈ demoPlan, day.2.map Prod.fst = mealSlots) ∧
    (aggregateCalories demoPlan).map Prod.fst = weekDays ∧
    ("Day 1", 1350) ∈ aggregateCalories demoPlan :=
  ⟨by decide, by decide,
   (aggregateCalories_correct demoPlan (by decide) (by decide)).1,
   (aggregateCalories_correct demoPlan (by decide) (by decide)).2
     ("Day 1", [("Breakfast", oatmealBowl), ("Lunch", grilledChickenSalad),
       ("Snack", smoothie), ("Dinner", veggieStirFry)])
     (by decide) oatmealBowl grilledChickenSalad smoothie veggieStirFry rfl⟩

/-- C8: the shopping list is the flattened multiset of all assigned recipes'
ingredients, deduplicated under exact string equality, returned sorted; it
is a pure function of the plan (applying it twice gives the same list). -/
theorem extractShoppingList_correct (p : Plan) :
    (extractShoppingList p).Pairwise (fun a b => strLe a b = true) ∧
    (extractShoppingList p).Nodup ∧
    (∀ s : String, s ∈ extractShoppingList p ↔
      ∃ day ∈ p, ∃ m ∈ day.2, s ∈ m.2.ingredients) ∧
    extractShoppingList p = extractShoppingList p := by
  refine ⟨pySorted_sorted _, ?_, ?_, rfl⟩
  · exact (pySorted_perm (planItems p).dedup).symm.nodup (List.nodup_dedup _)
  · intro s
    rw [extractShoppingList, (pySorted_perm (planItems p).dedup).mem_iff, List.mem_dedup]
    simp only [planItems, List.mem_flatten, List.mem_map, Prod.exists]
    constructor
    · rintro ⟨l, ⟨a, b, hab, rfl⟩, hs⟩
      rcases List.mem_flatten.mp hs with ⟨l2, hl2, hs2⟩
      rcases List.mem_map.mp hl2 with ⟨m, hm, rfl⟩
      exact ⟨a, b, hab, m.1, m.2, hm, hs2⟩
    · rintro ⟨a, b, hab, a2, b2, hmem, hs⟩
      refine ⟨(List.map (fun m => m.2.ingredients) b).flatten, ⟨a, b, hab, rfl⟩, ?_⟩
      exact List.mem_flatten.mpr ⟨b2.ingredients, List.mem_map.mpr ⟨(a2, b2), hmem, rfl⟩, hs⟩

/-- C9: on the seven sample recipes with a vegan profile and empty allergy
string, the filtered set is exactly Oatmeal Bowl, Smoothie and Tofu Curry,
and every generated plan is a full 7×4 grid drawing every slot from those
three recipes. -/
theorem vegan_fixture_scenario :
    filteredRecipes "vegan" (parseAllergies "") SAMPLE_RECIPES =
      [oatmealBowl, smoothie, tofuCurry] ∧
    ∀ rand : Nat → Nat, ∃ p : Plan,
      generate_plan ⟨[("diet_type", "vegan"), ("allergies", "")], SAMPLE_RECIPES, none⟩
        rand =
        (⟨[("diet_type", "vegan"), ("allergies", "")], SAMPLE_RECIPES, some p⟩,
          GenOutcome.planShown p) ∧
      p.map Prod.fst = weekDays ∧
      ∀ day ∈ p, day.2.map Prod.fst = mealSlots ∧
        ∀ m ∈ day.2, m.2 ∈ [oatmealBowl, smoothie, tofuCurry] := by
  refine ⟨by decide, ?_⟩
  intro rand
  obtain ⟨p, h1, h2, h3⟩ := generate_plan_success
    ⟨[("diet_type", "vegan"), ("allergies", "")], SAMPLE_RECIPES, none⟩ rand
    (by decide) (by decide)
  have hF : filteredRecipes
      (dictGet [("diet_type", "vegan"), ("allergies", "")] "diet_type" "omnivore")
      (parseAllergies (dictGet [("diet_type", "vegan"), ("allergies", "")] "allergies" ""))
      SAMPLE_RECIPES = [oatmealBowl, smoothie, tofuCurry] := by decide
  refine ⟨p, h1, h2, fun day hday => ⟨(h3 day hday).1, fun m hm => ?_⟩⟩
  have hmem := ((h3 day hday).2 m hm).1
  rw [hF] at hmem
  exact hmem

/-- C10: allergy parsing splits on commas, strips and lower-cases tokens and
drops empty ones, so a string of commas and whitespace yields no tokens and
leaves the diet-filtered set untouched; matching runs against the
ingredients joined with ", ", which differs from bare concatenation. -/
theorem allergy_tokenization :
    (∀ s : String, (∀ c ∈ s.data, c = ',' ∨ c.isWhitespace = true) →
      parseAllergies s = [] ∧
      ∀ diet : String, ∀ recipes : List Recipe,
        filteredRecipes diet (parseAllergies s) recipes = dietFiltered diet recipes) ∧
    parseAllergies " Nut , ,MILK" = [String.data "nut", String.data "milk"] ∧
    hasAllergen [String.data "milk, curry"] tofuCurry = true ∧
    isSubstring (String.data "milk, curry")
      (pyLower (List.flatten (tofuCurry.ingredients.map String.data))) = false := by
  refine ⟨?_, by decide, by decide, by decide⟩
  intro s hs
  have h0 := parseAllergies_of_ws s hs
  exact ⟨h0, fun diet recipes => by rw [h0, filteredRecipes_no_tokens]⟩

theorem allergy_tokenization_witness :
    (∀ c ∈ (" ,, " : String).data, c = ',' ∨ c.isWhitespace = true) ∧
    parseAllergies " ,, " = [] ∧
    filteredRecipes "vegetarian" (parseAllergies " ,, ") SAMPLE_RECIPES =
      dietFiltered "vegetarian" SAMPLE_RECIPES :=
  ⟨by decide, (allergy_tokenization.1 " ,, " (by decide)).1,
   (allergy_tokenization.1 " ,, " (by decide)).2 "vegetarian" SAMPLE_RECIPES⟩
